import Mathlib

/-!
Shallow embedding of the `sat-x` fan-control and metrics service
(`src/sat_x/services/fan_control_service.py`, `src/sat_x/services/metrics_service.py`,
`src/sat_x/tasks/fan_control_task.py`, `src/sat_x/tasks/metrics_collector.py`,
`src/sat_x/repositories.py`, `src/sat_x/api/routes.py`).

Python floats are modelled as rationals, Python ints as integers, `Optional[T]`
as `Option T`.  Filesystem writes are modelled by an outcome oracle describing
how the OS would answer an attempted `open`/`write`; the embedding records the
list of attempted sysfs writes so that "performs no I/O" is a statement about
that list.
-/

namespace SatX

/-- A point of the fan curve (`config.py`, `FanCurvePoint`): temperature
threshold in Celsius and fan speed percentage. -/
structure FanCurvePoint where
  temp : ℚ
  speed : ℚ
  deriving DecidableEq, Repr

/-- Fan-control settings (`config.py`, `FanControlSettings`).  `control_path`
and `enable_path` are optional strings; an empty string is falsy in Python and
is treated like `None` by every `if not path` test in the source. -/
structure FanControlSettings where
  enabled : Bool
  control_path : Option String
  enable_path : Option String
  curve : List FanCurvePoint
  deriving DecidableEq, Repr

/-- `_FAN_MAX_PWM = 255` in `fan_control_service.py`. -/
def FAN_MAX_PWM : ℤ := 255

/-- Python truthiness of an optional string: `not path` is `True` exactly when
the path is `None` or the empty string. -/
def pathFalsy : Option String → Bool
  | none => true
  | some p => p = ""

/-- How the operating system answers one attempted sysfs write
(the branches of the `try`/`except` in `_write_to_sysfs`). -/
inductive WriteOutcome where
  | ok
  | fileNotFound
  | permissionDenied
  | otherError
  deriving DecidableEq, Repr

/-- One attempted sysfs write: path and value handed to the open call. -/
structure SysfsWrite where
  path : String
  value : String
  deriving DecidableEq, Repr

/-- `FanControlService._write_to_sysfs`: returns `False` without any I/O when
the path is falsy; otherwise attempts the write and returns `True` iff the OS
reports success, catching `FileNotFoundError`, `PermissionError` and any other
exception and returning `False` for each. -/
def write_to_sysfs (path : Option String) (_value : String) (outcome : WriteOutcome) : Bool :=
  if pathFalsy path then false
  else
    match outcome with
    | .ok => true
    | .fileNotFound => false
    | .permissionDenied => false
    | .otherError => false

/-- The I/O attempted by `_write_to_sysfs`: no attempt at all for a falsy path,
one attempted open/write otherwise (whether or not the OS lets it succeed). -/
def sysfsAttempts (path : Option String) (value : String) : List SysfsWrite :=
  match path with
  | none => []
  | some p => if p = "" then [] else [⟨p, value⟩]

/-- The curve scan inside `adjust_fan_speed`: walk the points in order, record
the speed of every point whose temperature is ≤ the current temperature, and
break at the first point whose temperature exceeds it.  `acc` is the running
`target_speed_percent` (initially `0.0`). -/
def evalCurve : List FanCurvePoint → ℚ → ℚ → ℚ
  | [], _, acc => acc
  | p :: rest, T, acc => if p.temp ≤ T then evalCurve rest T p.speed else acc

/-- Speed written by the wording of the spec for the curve evaluator: the speed of the
last breakpoint whose temperature does not exceed the input temperature, `0`
when there is no such breakpoint (and in particular for the empty curve). -/
def specEvalCurve (curve : List FanCurvePoint) (T : ℚ) : ℚ :=
  match (curve.filter (fun p => decide (p.temp ≤ T))).getLast? with
  | some p => p.speed
  | none => 0

/-- `target_pwm = max(0, min(_FAN_MAX_PWM, int(math.ceil((speed / 100.0) * _FAN_MAX_PWM))))`. -/
def targetPwm (speed : ℚ) : ℤ :=
  max 0 (min FAN_MAX_PWM ⌈speed / 100 * (FAN_MAX_PWM : ℚ)⌉)

/-- The wording of the spec for the level computation:
`clamp(round_up(target_speed/100 * MAX_LEVEL), 0, MAX_LEVEL)`. -/
def specClampLevel (speed : ℚ) : ℤ :=
  max 0 (min 255 ⌈speed / 100 * 255⌉)

/-- The PWM level `adjust_fan_speed` computes from a temperature and a config. -/
def computedPwm (temp : ℚ) (cfg : FanControlSettings) : ℤ :=
  targetPwm (evalCurve cfg.curve temp 0)

/-- OS answers for the (at most) two writes one `adjust_fan_speed` call can
attempt: the mode-enable write and the control-path write. -/
structure Env where
  enableOutcome : WriteOutcome
  controlOutcome : WriteOutcome
  deriving DecidableEq, Repr

/-- Result of one `adjust_fan_speed` call: the new `_last_pwm_written` and the
list of sysfs writes the call attempted, in order. -/
structure AdjustResult where
  state : Option ℤ
  writes : List SysfsWrite
  deriving DecidableEq, Repr

/-- `FanControlService.set_fan_manual_mode`: writes `"1"` to the enable path. -/
def set_fan_manual_mode (cfg : FanControlSettings) (outcome : WriteOutcome) : Bool :=
  write_to_sysfs cfg.enable_path "1" outcome

/-- `FanControlService.adjust_fan_speed`.  Early return when control is
disabled or the curve is empty; otherwise evaluate the curve, compute the PWM
level, and only when it differs from `_last_pwm_written` attempt the
mode-enable write (failure logged, not fatal) followed by the control-path
write, updating `_last_pwm_written` to the level on success and to `None` on
failure. -/
def adjust_fan_speed (temp : ℚ) (cfg : FanControlSettings) (st : Option ℤ) (env : Env) :
    AdjustResult :=
  if !cfg.enabled || cfg.curve.isEmpty then ⟨st, []⟩
  else
    let pwm := computedPwm temp cfg
    if some pwm = st then ⟨st, []⟩
    else
      let enableWrites := sysfsAttempts cfg.enable_path "1"
      let controlOk := write_to_sysfs cfg.control_path (toString pwm) env.controlOutcome
      let controlWrites := sysfsAttempts cfg.control_path (toString pwm)
      ⟨if controlOk then some pwm else none, enableWrites ++ controlWrites⟩

/-- Speed of the last point of a list, with default `d` for the empty list. -/
def lastSpeedD (l : List FanCurvePoint) (d : ℚ) : ℚ :=
  match l.getLast? with
  | some p => p.speed
  | none => d

theorem lastSpeedD_cons (p : FanCurvePoint) (l : List FanCurvePoint) (d : ℚ) :
    lastSpeedD (p :: l) d = lastSpeedD l p.speed := by
  cases l with
  | nil => rfl
  | cons q l' =>
    have h : (p :: q :: l').getLast? = (q :: l').getLast? := List.getLast?_cons_cons
    unfold lastSpeedD
    rw [h]
    cases hq : (q :: l').getLast? with
    | none => exact absurd hq (by simp)
    | some r => rfl

/-- On a curve sorted (non-strictly) ascending by temperature, the break in the
scan loses nothing: the scan returns the speed of the last breakpoint whose
temperature is ≤ `T`, or the accumulator if there is none. -/
theorem evalCurve_sorted_eq (T : ℚ) :
    ∀ curve : List FanCurvePoint, curve.Pairwise (fun a b => a.temp ≤ b.temp) →
      ∀ acc : ℚ, evalCurve curve T acc =
        lastSpeedD (curve.filter (fun p => decide (p.temp ≤ T))) acc := by
  intro curve
  induction curve with
  | nil => intro _ acc; rfl
  | cons p rest ih =>
    intro h acc
    rw [List.pairwise_cons] at h
    by_cases hp : p.temp ≤ T
    · have h1 : evalCurve (p :: rest) T acc = evalCurve rest T p.speed := by
        simp [evalCurve, hp]
      have hf : (p :: rest).filter (fun q => decide (q.temp ≤ T)) =
          p :: rest.filter (fun q => decide (q.temp ≤ T)) := by
        simp [List.filter_cons, hp]
      rw [h1, ih h.2 p.speed, hf, lastSpeedD_cons]
    · have h1 : evalCurve (p :: rest) T acc = acc := by
        simp [evalCurve, hp]
      have hf : (p :: rest).filter (fun q => decide (q.temp ≤ T)) = [] := by
        rw [List.filter_eq_nil_iff]
        intro q hq
        rw [List.mem_cons] at hq
        simp only [decide_eq_true_eq]
        rcases hq with rfl | hq
        · exact hp
        · intro hle
          exact hp (le_trans (h.1 q hq) hle)
      rw [h1, hf]
      rfl

/-- C1: for every curve sorted ascending by temperature and every temperature
`T`, the curve scan in `adjust_fan_speed` yields the speed of the highest
breakpoint whose temperature does not exceed `T`; it yields `0` when `T` is
below the temperature of every breakpoint, and `0` for the empty curve. -/
theorem C1_curve_evaluation (curve : List FanCurvePoint) (T : ℚ)
    (hsorted : curve.Pairwise (fun a b => a.temp ≤ b.temp)) :
    evalCurve curve T 0 = specEvalCurve curve T ∧
    evalCurve [] T 0 = 0 ∧
    ((∀ p ∈ curve, T < p.temp) → evalCurve curve T 0 = 0) := by
  refine ⟨?_, rfl, ?_⟩
  · rw [evalCurve_sorted_eq T curve hsorted 0]
    rfl
  · intro hbelow
    rw [evalCurve_sorted_eq T curve hsorted 0]
    have hf : curve.filter (fun p => decide (p.temp ≤ T)) = [] := by
      rw [List.filter_eq_nil_iff]
      intro q hq
      simp only [decide_eq_true_eq]
      exact not_le.mpr (hbelow q hq)
    rw [hf]
    rfl

/-- Witness for C1 on the example curve of the spec `[(40,0),(60,50),(80,100)]`
at `T = 61`. -/
theorem C1_curve_evaluation_witness :
    ([⟨40, 0⟩, ⟨60, 50⟩, ⟨80, 100⟩] : List FanCurvePoint).Pairwise
        (fun a b => a.temp ≤ b.temp) ∧
    evalCurve [⟨40, 0⟩, ⟨60, 50⟩, ⟨80, 100⟩] 61 0 =
        specEvalCurve [⟨40, 0⟩, ⟨60, 50⟩, ⟨80, 100⟩] 61 ∧
    evalCurve [⟨40, 0⟩, ⟨60, 50⟩, ⟨80, 100⟩] 61 0 = 50 :=
  ⟨by decide, (C1_curve_evaluation _ 61 (by decide)).1, by decide⟩

/-- Evaluate an integer ceiling of a rational by sandwiching. -/
theorem ceilEval (q : ℚ) (z : ℤ) (h1 : (z : ℚ) - 1 < q) (h2 : q ≤ (z : ℚ)) :
    (⌈q⌉ : ℤ) = z :=
  Int.ceil_eq_iff.mpr ⟨h1, h2⟩

/-- C4: for every target speed `s ∈ [0,100]`, the level computed by
`adjust_fan_speed` equals the clamp formula `clamp(ceil(s/100*255), 0, 255)` of the spec; the
clamp is redundant on that range so the level is exactly `⌈s·255/100⌉`; the
level never under-drives the requested speed; and `s = 1` yields level 3. -/
theorem C4_pwm_level (s : ℚ) (h0 : 0 ≤ s) (h100 : s ≤ 100) :
    targetPwm s = specClampLevel s ∧
    targetPwm s = ⌈s * 255 / 100⌉ ∧
    s * 255 ≤ 100 * (targetPwm s : ℚ) ∧
    targetPwm 1 = 3 := by
  have harg : s / 100 * (255 : ℚ) = s * 255 / 100 := by ring
  have hc0 : (0 : ℤ) ≤ ⌈s / 100 * (255 : ℚ)⌉ :=
    Int.ceil_nonneg (by positivity)
  have hc255 : (⌈s / 100 * (255 : ℚ)⌉ : ℤ) ≤ 255 := by
    apply Int.ceil_le.mpr
    rw [harg]
    push_cast
    nlinarith
  have hpwm : targetPwm s = ⌈s / 100 * (255 : ℚ)⌉ := by
    unfold targetPwm FAN_MAX_PWM
    push_cast
    omega
  refine ⟨?_, ?_, ?_, ?_⟩
  · unfold targetPwm specClampLevel FAN_MAX_PWM
    push_cast
    rfl
  · rw [hpwm, harg]
  · have hle : s * 255 / 100 ≤ (⌈s * 255 / 100⌉ : ℚ) := Int.le_ceil _
    rw [hpwm, harg]
    linarith
  · have h3 : (⌈(1 : ℚ) / 100 * (255 : ℚ)⌉ : ℤ) = 3 :=
      ceilEval _ _ (by norm_num) (by norm_num)
    unfold targetPwm FAN_MAX_PWM
    push_cast
    rw [h3]
    decide

/-- Witness for C4 at `s = 1`: the level is 3, not 2. -/
theorem C4_pwm_level_witness : (0 : ℚ) ≤ 1 ∧ (1 : ℚ) ≤ 100 ∧ targetPwm 1 = 3 :=
  ⟨by norm_num, by norm_num, (C4_pwm_level 1 (by norm_num) (by norm_num)).2.2.2⟩

/-- Evaluate `targetPwm` at a concrete speed by sandwiching the ceiling. -/
theorem targetPwmEval (s : ℚ) (z : ℤ) (hz0 : 0 ≤ z) (hz255 : z ≤ 255)
    (h1 : (z : ℚ) - 1 < s / 100 * 255) (h2 : s / 100 * 255 ≤ (z : ℚ)) :
    targetPwm s = z := by
  unfold targetPwm FAN_MAX_PWM
  push_cast
  rw [ceilEval _ z h1 h2]
  omega

/-- A call whose computed level equals `_last_pwm_written` takes the `else`
branch: no sysfs write is attempted and the state is unchanged. -/
theorem adjust_suppressed (temp : ℚ) (cfg : FanControlSettings) (st : Option ℤ)
    (env : Env) (h : st = some (computedPwm temp cfg)) :
    adjust_fan_speed temp cfg st env = ⟨st, []⟩ := by
  unfold adjust_fan_speed
  by_cases hd : (!cfg.enabled || cfg.curve.isEmpty) = true
  · simp [hd]
  · simp [hd, h]

/-- When control is enabled, the curve is non-empty, the control path is a
non-falsy string and the OS accepts the control write, `adjust_fan_speed`
leaves `_last_pwm_written = some (computedPwm)` — whether because the write
succeeded or because it was suppressed as already written. -/
theorem adjust_state_ok (temp : ℚ) (cfg : FanControlSettings) (st : Option ℤ)
    (env : Env) (hen : cfg.enabled = true) (hcurve : cfg.curve ≠ [])
    (hpath : pathFalsy cfg.control_path = false)
    (hok : env.controlOutcome = WriteOutcome.ok) :
    (adjust_fan_speed temp cfg st env).state = some (computedPwm temp cfg) := by
  unfold adjust_fan_speed
  have hne : cfg.curve.isEmpty = false := by
    simpa [List.isEmpty_iff] using hcurve
  by_cases h : some (computedPwm temp cfg) = st
  · simp [hen, hne, h]
  · have hw : write_to_sysfs cfg.control_path (toString (computedPwm temp cfg))
        env.controlOutcome = true := by
      unfold write_to_sysfs
      rw [hpath, hok]
      rfl
    simp [hen, hne, h, hw]

/-- A non-suppressed call with a non-falsy control path attempts the
control-path write (it appears in the write list of the call), whatever the OS
answers. -/
theorem adjust_attempts_control_write (temp : ℚ) (cfg : FanControlSettings)
    (st : Option ℤ) (env : Env) (p : String)
    (hen : cfg.enabled = true) (hcurve : cfg.curve ≠ [])
    (hpath : cfg.control_path = some p) (hp : p ≠ "")
    (hne : st ≠ some (computedPwm temp cfg)) :
    SysfsWrite.mk p (toString (computedPwm temp cfg)) ∈
      (adjust_fan_speed temp cfg st env).writes := by
  unfold adjust_fan_speed
  have hce : cfg.curve.isEmpty = false := by
    simpa [List.isEmpty_iff] using hcurve
  have h : ¬ (some (computedPwm temp cfg) = st) := fun h => hne h.symm
  simp only [hen, hce, Bool.not_true, Bool.false_or, if_neg h]
  simp [sysfsAttempts, hpath, hp]

/-- On a failed control write, `_last_pwm_written` is cleared to `None`. -/
theorem adjust_state_fail (temp : ℚ) (cfg : FanControlSettings) (st : Option ℤ)
    (env : Env) (hen : cfg.enabled = true) (hcurve : cfg.curve ≠ [])
    (hfail : env.controlOutcome ≠ WriteOutcome.ok)
    (hne : st ≠ some (computedPwm temp cfg)) :
    (adjust_fan_speed temp cfg st env).state = none := by
  unfold adjust_fan_speed
  have hce : cfg.curve.isEmpty = false := by
    simpa [List.isEmpty_iff] using hcurve
  have h : ¬ (some (computedPwm temp cfg) = st) := fun h => hne h.symm
  have hw : write_to_sysfs cfg.control_path (toString (computedPwm temp cfg))
      env.controlOutcome = false := by
    unfold write_to_sysfs
    cases hout : env.controlOutcome with
    | ok => exact absurd hout hfail
    | fileNotFound => simp
    | permissionDenied => simp
    | otherError => simp
  simp [hen, hce, h, hw]

/-- A demonstration configuration: fan control enabled, both sysfs paths set,
single-point curve mapping every temperature ≥ 0 °C to 100 % speed. -/
def cfgDemo : FanControlSettings :=
  ⟨true, some "pwm1", some "pwm1_enable", [⟨0, 100⟩]⟩

/-- An OS that fails every attempted write. -/
def envFail : Env := ⟨WriteOutcome.otherError, WriteOutcome.otherError⟩

/-- An OS that accepts every attempted write. -/
def envOk : Env := ⟨WriteOutcome.ok, WriteOutcome.ok⟩

theorem cfgDemo_pwm : computedPwm 10 cfgDemo = 255 := by
  have hs : evalCurve cfgDemo.curve 10 0 = 100 := by decide
  unfold computedPwm
  rw [hs]
  exact targetPwmEval 100 255 (by norm_num) (by norm_num) (by norm_num) (by norm_num)

/-- C2, counterexample to the claim as stated: with `_last_pwm_written =
some 255`, a temperature whose computed level is again 255 and an OS that
fails every write, `adjust_fan_speed` does not set the state to `None` — it
never attempts the control write at all (suppression fires first), so the
state stays `some 255`. -/
theorem C2_forced_retry_counterexample :
    computedPwm 10 cfgDemo = 255 ∧
    envFail.controlOutcome ≠ WriteOutcome.ok ∧
    (adjust_fan_speed 10 cfgDemo (some 255) envFail).state ≠ none ∧
    (adjust_fan_speed 10 cfgDemo (some 255) envFail).state = some 255 ∧
    (adjust_fan_speed 10 cfgDemo (some 255) envFail).writes = [] := by
  have hadj : adjust_fan_speed 10 cfgDemo (some 255) envFail = ⟨some 255, []⟩ :=
    adjust_suppressed 10 cfgDemo (some 255) envFail (by rw [cfgDemo_pwm])
  refine ⟨cfgDemo_pwm, by decide, ?_, ?_, ?_⟩ <;> simp [hadj]

/-- C2 (amended): from state `Written(L)`, when the next call computes a level
`M ≠ L` and the OS fails the control write, the state becomes `Unknown`
(`None`); and a further call — whatever the OS now answers — attempts the
control write again rather than suppressing it. -/
theorem C2_forced_retry (temp : ℚ) (cfg : FanControlSettings) (L : ℤ)
    (env1 env2 : Env) (p : String)
    (hen : cfg.enabled = true) (hcurve : cfg.curve ≠ [])
    (hpath : cfg.control_path = some p) (hp : p ≠ "")
    (hdiff : computedPwm temp cfg ≠ L)
    (hfail : env1.controlOutcome ≠ WriteOutcome.ok) :
    (adjust_fan_speed temp cfg (some L) env1).state = none ∧
    SysfsWrite.mk p (toString (computedPwm temp cfg)) ∈
      (adjust_fan_speed temp cfg (some L) env1).writes ∧
    SysfsWrite.mk p (toString (computedPwm temp cfg)) ∈
      (adjust_fan_speed temp cfg
        ((adjust_fan_speed temp cfg (some L) env1).state) env2).writes := by
  have hne : (some L : Option ℤ) ≠ some (computedPwm temp cfg) := by
    intro h
    exact hdiff (Option.some_injective _ h).symm
  have hstate : (adjust_fan_speed temp cfg (some L) env1).state = none :=
    adjust_state_fail temp cfg (some L) env1 hen hcurve hfail hne
  refine ⟨hstate, ?_, ?_⟩
  · exact adjust_attempts_control_write temp cfg (some L) env1 p hen hcurve hpath hp hne
  · rw [hstate]
    exact adjust_attempts_control_write temp cfg none env2 p hen hcurve hpath hp
      (by simp)

/-- Witness for the amended C2 at a concrete configuration: last written 0,
computed level 255, first write fails, second call re-attempts. -/
theorem C2_forced_retry_witness :
    (adjust_fan_speed 10 cfgDemo (some 0) envFail).state = none ∧
    SysfsWrite.mk "pwm1" (toString (computedPwm 10 cfgDemo)) ∈
      (adjust_fan_speed 10 cfgDemo (some 0) envFail).writes ∧
    SysfsWrite.mk "pwm1" (toString (computedPwm 10 cfgDemo)) ∈
      (adjust_fan_speed 10 cfgDemo
        ((adjust_fan_speed 10 cfgDemo (some 0) envFail).state) envOk).writes :=
  C2_forced_retry 10 cfgDemo 0 envFail envOk "pwm1" rfl (by decide) rfl
    (by decide) (by rw [cfgDemo_pwm]; decide) (by decide)

/-- C3, counterexample to the claim as stated: with fan control enabled, a
non-empty curve and an OS that fails every write, two consecutive
`adjust_fan_speed` calls at the same temperature each attempt a write
sequence — the failed first write clears `_last_pwm_written`, so the second
call is not suppressed.  "At most one actuator write sequence" therefore does
not hold unconditionally. -/
theorem C3_two_write_sequences_counterexample :
    (adjust_fan_speed 10 cfgDemo none envFail).writes ≠ [] ∧
    (adjust_fan_speed 10 cfgDemo
        ((adjust_fan_speed 10 cfgDemo none envFail).state) envFail).writes ≠ [] := by
  have h1 : SysfsWrite.mk "pwm1" (toString (computedPwm 10 cfgDemo)) ∈
      (adjust_fan_speed 10 cfgDemo none envFail).writes :=
    adjust_attempts_control_write 10 cfgDemo none envFail "pwm1" rfl (by decide)
      rfl (by decide) (by simp)
  have hst : (adjust_fan_speed 10 cfgDemo none envFail).state = none :=
    adjust_state_fail 10 cfgDemo none envFail rfl (by decide) (by decide) (by simp)
  refine ⟨List.ne_nil_of_mem h1, ?_⟩
  rw [hst]
  exact List.ne_nil_of_mem
    (adjust_attempts_control_write 10 cfgDemo none envFail "pwm1" rfl (by decide)
      rfl (by decide) (by simp))

/-- C3 (amended): with control enabled, a non-empty curve, a usable control path and an
OS that accepts the control write of the first call, two consecutive
`adjust_fan_speed` calls at the same temperature perform at most one write
sequence: the second call attempts no sysfs write at all (neither the
mode-enable nor the control-path write) and leaves the state unchanged; and
any call whose computed level already equals `_last_pwm_written` performs no
I/O at all. -/
theorem C3_idempotent_adjust (temp : ℚ) (cfg : FanControlSettings)
    (st : Option ℤ) (env1 env2 : Env)
    (hen : cfg.enabled = true) (hcurve : cfg.curve ≠ [])
    (hpath : pathFalsy cfg.control_path = false)
    (hok : env1.controlOutcome = WriteOutcome.ok) :
    (adjust_fan_speed temp cfg
        ((adjust_fan_speed temp cfg st env1).state) env2).writes = [] ∧
    (adjust_fan_speed temp cfg
        ((adjust_fan_speed temp cfg st env1).state) env2).state =
      (adjust_fan_speed temp cfg st env1).state ∧
    (st = some (computedPwm temp cfg) →
      (adjust_fan_speed temp cfg st env1).writes = []) := by
  have h1 : (adjust_fan_speed temp cfg st env1).state = some (computedPwm temp cfg) :=
    adjust_state_ok temp cfg st env1 hen hcurve hpath hok
  have h2 : adjust_fan_speed temp cfg
      ((adjust_fan_speed temp cfg st env1).state) env2 =
      ⟨(adjust_fan_speed temp cfg st env1).state, []⟩ :=
    adjust_suppressed temp cfg _ env2 h1
  refine ⟨by rw [h2], by rw [h2], ?_⟩
  intro hst
  rw [adjust_suppressed temp cfg st env1 hst]

/-- Witness for C3 at a concrete configuration and temperature. -/
theorem C3_idempotent_adjust_witness :
    (adjust_fan_speed 10 cfgDemo
        ((adjust_fan_speed 10 cfgDemo none envOk).state) envFail).writes = [] ∧
    (adjust_fan_speed 10 cfgDemo
        ((adjust_fan_speed 10 cfgDemo none envOk).state) envFail).state =
      (adjust_fan_speed 10 cfgDemo none envOk).state :=
  ⟨(C3_idempotent_adjust 10 cfgDemo none envOk envFail rfl (by decide) rfl rfl).1,
   (C3_idempotent_adjust 10 cfgDemo none envOk envFail rfl (by decide) rfl rfl).2.1⟩

/-- C6: `_write_to_sysfs` returns a boolean for every input — the embedding is
a total function, every exception branch of the source being caught and mapped
to `False` — and it returns `True` exactly when the path is present, non-empty
and the OS reports success; it returns `False` for a `None`/empty path, a
missing file, a permission error, or any other I/O failure. -/
theorem C6_write_to_sysfs_total (path : Option String) (value : String)
    (outcome : WriteOutcome) :
    (write_to_sysfs path value outcome = true ↔
      (pathFalsy path = false ∧ outcome = WriteOutcome.ok)) ∧
    (path = none → write_to_sysfs path value outcome = false) ∧
    (path = some "" → write_to_sysfs path value outcome = false) ∧
    (outcome = WriteOutcome.fileNotFound → write_to_sysfs path value outcome = false) ∧
    (outcome = WriteOutcome.permissionDenied → write_to_sysfs path value outcome = false) ∧
    (outcome = WriteOutcome.otherError → write_to_sysfs path value outcome = false) := by
  cases path <;> cases outcome <;>
    simp only [write_to_sysfs, pathFalsy] <;>
    refine ⟨?_, ?_, ?_, ?_, ?_, ?_⟩ <;>
    simp +contextual

/-- Witness for C6 at concrete inputs: absent path, empty path, permission
failure and success. -/
theorem C6_write_to_sysfs_total_witness :
    write_to_sysfs none "1" WriteOutcome.ok = false ∧
    write_to_sysfs (some "") "1" WriteOutcome.ok = false ∧
    write_to_sysfs (some "pwm1") "1" WriteOutcome.permissionDenied = false ∧
    write_to_sysfs (some "pwm1") "1" WriteOutcome.ok = true :=
  ⟨(C6_write_to_sysfs_total none "1" WriteOutcome.ok).2.1 rfl,
   (C6_write_to_sysfs_total (some "") "1" WriteOutcome.ok).2.2.1 rfl,
   (C6_write_to_sysfs_total (some "pwm1") "1" WriteOutcome.permissionDenied).2.2.2.2.1 rfl,
   (C6_write_to_sysfs_total (some "pwm1") "1" WriteOutcome.ok).1.mpr ⟨rfl, rfl⟩⟩

/-- A telemetry sample as returned by `MetricsService.get_system_metrics`
(`metrics_service.py`): five independently optional fields, one per sensor. -/
structure Sample where
  cpu_percent : Option ℚ
  memory_percent : Option ℚ
  disk_usage_percent : Option ℚ
  cpu_temp_celsius : Option ℚ
  fan_speed_percent : Option ℚ
  deriving DecidableEq, Repr

/-- The value columns of a row of the `metrics` table (`models.py`, `Metric`);
all five are nullable. -/
structure Metric where
  cpu_percent : Option ℚ
  memory_percent : Option ℚ
  disk_usage_percent : Option ℚ
  cpu_temp_celsius : Option ℚ
  fan_speed_percent : Option ℚ
  deriving DecidableEq, Repr

/-- The ORM object built in `collect_and_store_metrics`
(`metrics_collector.py` lines 17–22): only `cpu_percent`, `memory_percent`
and `disk_usage_percent` are copied from the collected data; the
`cpu_temp_celsius` and `fan_speed_percent` columns are not passed to the
constructor (the source comment there reads "Add other fields as needed"),
so they keep their nullable default. -/
def metricFromSample (s : Sample) : Metric :=
  { cpu_percent := s.cpu_percent
    memory_percent := s.memory_percent
    disk_usage_percent := s.disk_usage_percent
    cpu_temp_celsius := none
    fan_speed_percent := none }

/-- Database session state: the committed rows, and the rows flushed inside
the open transaction but not yet committed. -/
structure Session where
  committed : List Metric
  pending : List Metric
  deriving DecidableEq, Repr

/-- Whether the database accepts, in one iteration, the flush issued by
`MetricRepository.add` and the subsequent `session.commit()`. -/
structure DbEnv where
  addOk : Bool
  commitOk : Bool
  deriving DecidableEq, Repr

/-- `collect_and_store_metrics` (`metrics_collector.py`): build the `Metric`
from the sample, then `try: repo.add(metric); session.commit()` with
`except: session.rollback()` — a failing flush or commit rolls the open
transaction back and is logged, never re-raised. -/
def collect_and_store_metrics (sample : Sample) (sess : Session) (env : DbEnv) :
    Session :=
  let metric := metricFromSample sample
  if env.addOk then
    let flushed : Session := ⟨sess.committed, sess.pending ++ [metric]⟩
    if env.commitOk then ⟨flushed.committed ++ flushed.pending, []⟩
    else ⟨sess.committed, []⟩
  else ⟨sess.committed, []⟩

/-- A sample in which every sensor, including temperature and fan speed,
delivered a value. -/
def sampleDemo : Sample := ⟨some 10, some 20, some 30, some 55, some 40⟩

/-- C5 fails on the code: for the sample
`{cpu 10, mem 20, disk 30, temp 55, fan 40}` and a successful flush and
commit, the stored record carries the three utilization fields but `none` for
`cpu_temp_celsius` and `fan_speed_percent`, which differ from the fields
`some 55` and `some 40` of the sample — the full telemetry sample is not persisted. -/
theorem C5_full_sample_not_persisted :
    (collect_and_store_metrics sampleDemo ⟨[], []⟩ ⟨true, true⟩).committed =
      [⟨some 10, some 20, some 30, none, none⟩] ∧
    sampleDemo.cpu_temp_celsius = some 55 ∧
    sampleDemo.fan_speed_percent = some 40 ∧
    (metricFromSample sampleDemo).cpu_temp_celsius ≠ sampleDemo.cpu_temp_celsius ∧
    (metricFromSample sampleDemo).fan_speed_percent ≠ sampleDemo.fan_speed_percent := by
  decide

/-- C10: when the flush or the commit of an iteration fails, the session is
rolled back: the committed rows are exactly the ones from before the
iteration, nothing of the new record survives, and the pending transaction is
emptied.  (The embedding is a total function, matching the except/rollback
in the source, which never re-raises.) -/
theorem C10_rollback_on_failure (sample : Sample) (db : List Metric) (env : DbEnv)
    (hfail : ¬(env.addOk = true ∧ env.commitOk = true)) :
    (collect_and_store_metrics sample ⟨db, []⟩ env).committed = db ∧
    (collect_and_store_metrics sample ⟨db, []⟩ env).pending = [] := by
  unfold collect_and_store_metrics
  cases hadd : env.addOk <;> cases hcommit : env.commitOk <;> simp_all

/-- Witness for C10: a failing commit leaves a one-row database unchanged. -/
theorem C10_rollback_on_failure_witness :
    (collect_and_store_metrics sampleDemo ⟨[metricFromSample sampleDemo], []⟩
        ⟨true, false⟩).committed = [metricFromSample sampleDemo] ∧
    (collect_and_store_metrics sampleDemo ⟨[metricFromSample sampleDemo], []⟩
        ⟨true, false⟩).pending = [] :=
  C10_rollback_on_failure sampleDemo [metricFromSample sampleDemo] ⟨true, false⟩
    (by decide)

/-- A Python exception raised inside the unit of work of an iteration. -/
structure PyErr where
  msg : String
  deriving DecidableEq, Repr

/-- One iteration of the `while True` body of `run_fan_control_task`
(`fan_control_task.py` lines 28–43): the `try` block reads the metrics —
which may raise — and, when a temperature is available, calls
`adjust_fan_speed`; `except Exception` catches anything the unit of work
raised, logs it, and falls through to the sleep. -/
def fanIter (cfg : FanControlSettings) (st : Option ℤ)
    (work : Except PyErr (Option ℚ)) (env : Env) : Option ℤ × List SysfsWrite :=
  match work with
  | .error _ => (st, [])
  | .ok none => (st, [])
  | .ok (some t) =>
    let r := adjust_fan_speed t cfg st env
    (r.state, r.writes)

/-- Outcome of running a periodic loop for a bounded number of iterations. -/
structure LoopResult where
  state : Option ℤ
  writes : List SysfsWrite
  iterations : ℕ
  deriving DecidableEq, Repr

/-- The fan-control `while True` loop, run for `fuel` iterations; `works i`
and `envs i` are the metrics-read outcome and the OS write answers of iteration `i`,
`done` counts the iterations already completed. -/
def fanLoop (cfg : FanControlSettings) (works : ℕ → Except PyErr (Option ℚ))
    (envs : ℕ → Env) : ℕ → Option ℤ → ℕ → LoopResult
  | 0, st, done => ⟨st, [], done⟩
  | fuel + 1, st, done =>
    let step := fanIter cfg st (works done) (envs done)
    let r := fanLoop cfg works envs fuel step.1 (done + 1)
    ⟨r.state, step.2 ++ r.writes, r.iterations⟩

/-- One iteration of the `while True` body of `run_metrics_collector_task`
(`metrics_collector.py` lines 44–49): obtaining the sample happens before
the inner try of `collect_and_store_metrics`, so a raising sensor read propagates
to the loop; a persistence failure is already absorbed (rolled back) inside
`collect_and_store_metrics`. -/
def metricsIter (work : Except PyErr Sample) (env : DbEnv) (db : List Metric) :
    Except PyErr (List Metric) :=
  match work with
  | .error e => .error e
  | .ok sample => .ok (collect_and_store_metrics sample ⟨db, []⟩ env).committed

/-- The metrics-collector `while True` loop, run for `fuel` iterations: the
loop-level `except Exception` catches whatever the iteration raised, logs it,
and continues with the database unchanged. -/
def metricsLoop (works : ℕ → Except PyErr Sample) (envs : ℕ → DbEnv) :
    ℕ → List Metric → ℕ → List Metric × ℕ
  | 0, db, done => (db, done)
  | fuel + 1, db, done =>
    match metricsIter (works done) (envs done) db with
    | .error _ => metricsLoop works envs fuel db (done + 1)
    | .ok db' => metricsLoop works envs fuel db' (done + 1)

theorem fanLoop_iterations (cfg : FanControlSettings)
    (works : ℕ → Except PyErr (Option ℚ)) (envs : ℕ → Env) :
    ∀ (fuel : ℕ) (st : Option ℤ) (done : ℕ),
      (fanLoop cfg works envs fuel st done).iterations = done + fuel := by
  intro fuel
  induction fuel with
  | zero => intro st done; rfl
  | succ n ih =>
    intro st done
    unfold fanLoop
    rw [ih]
    omega

theorem metricsLoop_iterations (works : ℕ → Except PyErr Sample)
    (envs : ℕ → DbEnv) :
    ∀ (fuel : ℕ) (db : List Metric) (done : ℕ),
      (metricsLoop works envs fuel db done).2 = done + fuel := by
  intro fuel
  induction fuel with
  | zero => intro db done; rfl
  | succ n ih =>
    intro db done
    unfold metricsLoop
    cases metricsIter (works done) (envs done) db with
    | error e => rw [ih]; omega
    | ok db' => rw [ih]; omega

/-- C8: for every schedule of per-iteration outcomes — sensor reads that
raise, deliver no temperature, or deliver one; OS write answers; flush/commit
failures — both periodic loops complete every scheduled iteration: no error
raised inside the unit of work of an iteration escapes, so a bad iteration never
terminates either loop. -/
theorem C8_loops_survive_errors (cfg : FanControlSettings)
    (works : ℕ → Except PyErr (Option ℚ)) (envs : ℕ → Env)
    (samples : ℕ → Except PyErr Sample) (dbenvs : ℕ → DbEnv)
    (fuel : ℕ) (st : Option ℤ) (db : List Metric) :
    (fanLoop cfg works envs fuel st 0).iterations = fuel ∧
    (metricsLoop samples dbenvs fuel db 0).2 = fuel := by
  constructor
  · rw [fanLoop_iterations]
    omega
  · rw [metricsLoop_iterations]
    omega

/-- Aggregate outcome of `run_fan_control_task`: every sysfs write the task
attempted (initial manual-mode write included) and the number of loop
iterations it ran. -/
structure TaskResult where
  writes : List SysfsWrite
  iterations : ℕ
  deriving DecidableEq, Repr

/-- `run_fan_control_task` (`fan_control_task.py`): return immediately when
fan control is absent or disabled, or when `control_path` or `enable_path` is
unset (falsy); otherwise attempt the initial manual-mode write and enter the
periodic loop (bounded here to `fuel` iterations). -/
def run_fan_control_task (fan_control : Option FanControlSettings) (fuel : ℕ)
    (works : ℕ → Except PyErr (Option ℚ)) (envs : ℕ → Env) : TaskResult :=
  match fan_control with
  | none => ⟨[], 0⟩
  | some cfg =>
    if !cfg.enabled then ⟨[], 0⟩
    else if pathFalsy cfg.control_path || pathFalsy cfg.enable_path then ⟨[], 0⟩
    else
      let initWrites := sysfsAttempts cfg.enable_path "1"
      let r := fanLoop cfg works envs fuel none 0
      ⟨initWrites ++ r.writes, r.iterations⟩

/-- C9: with fan control enabled but `control_path` or `enable_path` unset
(`None` or empty), `run_fan_control_task` returns before the initial
manual-mode write and before the loop: zero sysfs writes are attempted and
zero iterations run, whatever the sensors and the OS would have answered. -/
theorem C9_missing_path_disables_task (cfg : FanControlSettings) (fuel : ℕ)
    (works : ℕ → Except PyErr (Option ℚ)) (envs : ℕ → Env)
    (hen : cfg.enabled = true)
    (hmiss : pathFalsy cfg.control_path = true ∨ pathFalsy cfg.enable_path = true) :
    run_fan_control_task (some cfg) fuel works envs = ⟨[], 0⟩ := by
  unfold run_fan_control_task
  rcases hmiss with h | h <;> simp [hen, h]

/-- Witness for C9: enabled config whose control path is `None` produces no
writes and no iterations over five scheduled cycles. -/
theorem C9_missing_path_disables_task_witness :
    run_fan_control_task
        (some ⟨true, none, some "pwm1_enable", [⟨0, 100⟩]⟩) 5
        (fun _ => Except.ok (some 50)) (fun _ => envOk) = ⟨[], 0⟩ :=
  C9_missing_path_disables_task ⟨true, none, some "pwm1_enable", [⟨0, 100⟩]⟩ 5
    (fun _ => Except.ok (some 50)) (fun _ => envOk) rfl (Or.inl rfl)

/-- A row of the `metrics` table as the range query sees it: primary key and
timestamp (the value columns play no role in C7). -/
structure MetricRow where
  id : ℕ
  ts : ℤ
  deriving DecidableEq, Repr

instance : DecidableRel (fun a b : MetricRow => a.ts ≤ b.ts) :=
  fun a b => inferInstanceAs (Decidable (a.ts ≤ b.ts))

instance : IsTotal MetricRow (fun a b => a.ts ≤ b.ts) :=
  ⟨fun a b => le_total a.ts b.ts⟩

instance : IsTrans MetricRow (fun a b => a.ts ≤ b.ts) :=
  ⟨fun _ _ _ => le_trans⟩

/-- `MetricRepository.get_range` (`repositories.py` lines 50–64): the rows
with `start_time ≤ timestamp ≤ end_time`, ordered by timestamp ascending,
at most `limit` of them. -/
def get_range (db : List MetricRow) (start_time end_time : ℤ) (limit : ℕ) :
    List MetricRow :=
  (((db.filter (fun m => decide (start_time ≤ m.ts ∧ m.ts ≤ end_time))).insertionSort
      (fun a b => a.ts ≤ b.ts)).take limit)

/-- `get_metrics_in_range` (`routes.py` lines 60–76): raise `HTTPException`
with status 400 when `start_time >= end_time`, otherwise answer with the
range query of the repository. -/
def get_metrics_in_range (db : List MetricRow) (start_time end_time : ℤ)
    (limit : ℕ) : Except ℕ (List MetricRow) :=
  if start_time ≥ end_time then Except.error 400
  else Except.ok (get_range db start_time end_time limit)

/-- C7: a range request with `start_time ≥ end_time` is rejected with a 400
error; with `start_time < end_time` it succeeds, and the returned rows all
have timestamps in `[start_time, end_time]`, come in ascending timestamp
order, and number at most `limit`. -/
theorem C7_range_endpoint (db : List MetricRow) (s e : ℤ) (limit : ℕ) :
    (s ≥ e → get_metrics_in_range db s e limit = Except.error 400) ∧
    (s < e → ∃ l, get_metrics_in_range db s e limit = Except.ok l ∧
      l.length ≤ limit ∧
      l.Sorted (fun a b => a.ts ≤ b.ts) ∧
      ∀ m ∈ l, s ≤ m.ts ∧ m.ts ≤ e) := by
  constructor
  · intro hge
    unfold get_metrics_in_range
    rw [if_pos hge]
  · intro hlt
    refine ⟨get_range db s e limit, ?_, ?_, ?_, ?_⟩
    · unfold get_metrics_in_range
      rw [if_neg (not_le.mpr hlt)]
    · exact List.length_take_le _ _
    · exact List.Pairwise.sublist (List.take_sublist _ _)
        (List.sorted_insertionSort _ _)
    · intro m hm
      have h1 : m ∈ (db.filter
          (fun m => decide (s ≤ m.ts ∧ m.ts ≤ e))).insertionSort
          (fun a b => a.ts ≤ b.ts) := List.mem_of_mem_take hm
      have h2 : m ∈ db.filter (fun m => decide (s ≤ m.ts ∧ m.ts ≤ e)) :=
        (List.perm_insertionSort _ _).mem_iff.mp h1
      have h3 := (List.mem_filter.mp h2).2
      exact of_decide_eq_true h3

/-- Witness for C7 on a three-row table: `start ≥ end` is rejected, and a
proper window succeeds with bounded, ordered, in-range rows. -/
theorem C7_range_endpoint_witness :
    get_metrics_in_range [⟨1, 7⟩, ⟨2, 2⟩, ⟨3, 4⟩] 5 3 10 = Except.error 400 ∧
    ∃ l, get_metrics_in_range [⟨1, 7⟩, ⟨2, 2⟩, ⟨3, 4⟩] 1 5 10 = Except.ok l ∧
      l.length ≤ 10 ∧
      l.Sorted (fun a b => a.ts ≤ b.ts) ∧
      ∀ m ∈ l, 1 ≤ m.ts ∧ m.ts ≤ 5 :=
  ⟨(C7_range_endpoint [⟨1, 7⟩, ⟨2, 2⟩, ⟨3, 4⟩] 5 3 10).1 (by norm_num),
   (C7_range_endpoint [⟨1, 7⟩, ⟨2, 2⟩, ⟨3, 4⟩] 1 5 10).2 (by norm_num)⟩

end SatX
